import Mathlib

/-!
Shallow embedding of `src/ec2_ami_copy.py` (smaato/ec2-ami-copy).

The script copies a public AMI into the own AWS account: it fetches the
source image, copies its root snapshot, builds a fresh block-device map
(root volume bound to the copied snapshot, fixed 10 GB gp2, plus four
ephemeral slots), and registers a new image, polling each asynchronous
provider operation until it leaves the `pending` status.

Provider calls (`boto` connection methods) are modelled by an oracle
`Connection` whose fields give, for each call site, the provider's reply;
status-polling calls are indexed by the number of the fetch so a run is a
status sequence.  A raised-and-caught `EC2ResponseError` followed by
`logging.critical`/`sys.exit(1)` is modelled as `Outcome.exit` tagged with
the error-taxonomy name the specification gives that exit; an uncaught
Python exception (`IndexError` from `[0]` on an empty list, `KeyError`
from a missing dict key) is modelled as `Outcome.unhandled`; a polling
loop still running when the fuel is exhausted is `Outcome.spinning`
(the real loop has no bound and would simply continue).
-/

/-- Device spec held in a block-device mapping, mirroring boto's
`BlockDeviceType` with its constructor defaults (`snapshot_id=None`,
`size=None`, `volume_type=None`, `delete_on_termination=False`,
`ephemeral_name=None`). -/
structure BlockDeviceType where
  snapshot_id : Option String := none
  size : Option Nat := none
  volume_type : Option String := none
  delete_on_termination : Bool := false
  ephemeral_name : Option String := none
deriving Repr, DecidableEq

/-- A block-device mapping: boto's `BlockDeviceMapping` is a `dict`
subclass, modelled as an insertion-ordered association list from device
name to device spec. -/
abbrev BDMap : Type := List (String × BlockDeviceType)

/-- Python `dict` assignment `m[k] = v`: replace in place when the key is
present, append otherwise. -/
def dictInsert (m : BDMap) (k : String) (v : BlockDeviceType) : BDMap :=
  if m.any (fun p => p.1 = k) then m.map (fun p => if p.1 = k then (k, v) else p)
  else m ++ [(k, v)]

/-- Python `dict` lookup `m[k]`, as an `Option` (a `KeyError` is `none`). -/
def dictFind (m : BDMap) (k : String) : Option BlockDeviceType :=
  (m.find? (fun p => p.1 = k)).map (fun p => p.2)

/-- The source image descriptor: the attributes of the boto image object
that `ec2_ami_copy.py` reads. -/
structure SourceImage where
  id : String
  name : String
  architecture : String
  kernel_id : String
  ramdisk_id : String
  root_device_name : String
  virtualization_type : String
  sriov_net_support : String
  block_device_mapping : BDMap
deriving Repr, DecidableEq

/-- The source snapshot metadata the script reads: its id and description. -/
structure Snapshot where
  id : String
  description : String
deriving Repr, DecidableEq

/-- Error taxonomy of the specification for the `logging.critical` +
`sys.exit(1)` error paths of the script. -/
inductive AmiCopyError
  | ResourceLookupError
  | CopyRequestError
  | RegistrationRequestError
  | SnapshotCopyFailedError (snapshot_id : String)
  | ImageCreationFailedError (image_id : String)
  | InvalidSourceImageError
deriving Repr, DecidableEq

/-- Reply of a single provider call: a result, or a raised
`EC2ResponseError` carrying the provider's message. -/
inductive ProvResult (α : Type)
  | ok (a : α)
  | ec2error (msg : String)
deriving Repr, DecidableEq

/-- Outcome of running a piece of the script: a normal return, a
`logging.critical` + `sys.exit(1)` tagged with its taxonomy name, an
uncaught Python exception, or a polling loop still pending when the fuel
ran out. -/
inductive Outcome (α : Type)
  | ok (a : α)
  | exit (e : AmiCopyError)
  | unhandled (msg : String)
  | spinning
deriving Repr, DecidableEq

/-- Arguments of the `connection.register_image(...)` call issued by
`create_image`. -/
structure RegisterRequest where
  name : String
  architecture : String
  kernel_id : String
  ramdisk_id : String
  root_device_name : String
  block_device_map : BDMap
  virtualization_type : String
  sriov_net_support : String
deriving Repr, DecidableEq

/-- Provider oracle: one field per call site of the script.  The two
status-polling call sites take the index of the fetch, so a run fixes a
sequence of provider replies. -/
structure Connection where
  get_all_images : String → ProvResult (List SourceImage)
  get_all_snapshots : Option String → ProvResult (List Snapshot)
  copy_snapshot_request : String → String → String → ProvResult String
  get_snapshot_status : String → Nat → ProvResult (List String)
  register_image : RegisterRequest → ProvResult String
  get_image_state : String → Nat → ProvResult (List String)

/-- Embedding of `build_block_device_map(source_image, target_snapshot_id)`.

The Python reads
`source_image.block_device_mapping[root_device_name].delete_on_termination`;
the `KeyError` raised when the source mapping lacks an entry for the
image's own root device name is the failure mode the specification's
taxonomy names `InvalidSourceImageError`, so the missing-key case returns
`Except.error .InvalidSourceImageError`.  The root entry is
`BlockDeviceType(snapshot_id=target_snapshot_id, size=10,
volume_type='gp2', delete_on_termination=del_root_volume)`; the loop adds
`'/dev/sd%s' % chr(98+i)` with `ephemeral_name='ephemeral%i' % i` for
`i in range(0, 4)`. -/
def build_block_device_map (source_image : SourceImage) (target_snapshot_id : String) :
    Except AmiCopyError BDMap :=
  let root_device_name := source_image.root_device_name
  match dictFind source_image.block_device_mapping root_device_name with
  | none => .error .InvalidSourceImageError
  | some root_entry =>
    let del_root_volume := root_entry.delete_on_termination
    let block_device_map : BDMap := []
    let block_device_map := dictInsert block_device_map root_device_name
      { snapshot_id := some target_snapshot_id
        size := some 10
        volume_type := some "gp2"
        delete_on_termination := del_root_volume }
    let block_device_map := (List.range 4).foldl
      (fun m i => dictInsert m ("/dev/sd" ++ String.singleton (Char.ofNat (98 + i)))
        { ephemeral_name := some ("ephemeral" ++ toString i) }) block_device_map
  .ok block_device_map

/-- Embedding of a `while <fetch>(id)[0].<field> == 'pending': sleep(5)`
polling loop, shared shape of the two loops of the script.  `get j` is the
reply to the j-th status fetch; the loop starts at fetch index `j` and
returns `.ok k` where `k` is the index of the fetch whose status ended the
loop — equivalently, the number of times the loop body (the sleep) ran.
A provider error raised by a fetch, or an empty metadata list, is an
uncaught exception (`.unhandled`); `fuel` bounds the unbounded real loop,
`.spinning` meaning it was still polling. -/
def pollLoop (get : Nat → ProvResult (List String)) : Nat → Nat → Outcome Nat
  | 0, _ => .spinning
  | fuel + 1, j =>
    match get j with
    | .ec2error msg => .unhandled msg
    | .ok [] => .unhandled "IndexError"
    | .ok (s :: _) => if s = "pending" then pollLoop get fuel (j + 1) else .ok j

/-- Embedding of `copy_snapshot(connection, source_region, snapshot_id)`.

Fetches the source snapshot metadata (a caught `EC2ResponseError` is the
`ResourceLookupError` exit; an empty list makes `[0]` raise an uncaught
`IndexError`), issues the copy request (a caught error is the
`CopyRequestError` exit), polls the new snapshot's status until it leaves
`pending`, then makes one further unguarded status fetch: `error` there is
the `SnapshotCopyFailedError` exit naming the new snapshot id, anything
else returns the new snapshot id. -/
def copy_snapshot (conn : Connection) (source_region : String) (snapshot_id : Option String)
    (fuel : Nat) : Outcome String :=
  match conn.get_all_snapshots snapshot_id with
  | .ec2error _ => .exit .ResourceLookupError
  | .ok [] => .unhandled "IndexError"
  | .ok (source_snapshot :: _) =>
    match conn.copy_snapshot_request source_region source_snapshot.id
        source_snapshot.description with
    | .ec2error _ => .exit .CopyRequestError
    | .ok target_snapshot_id =>
      match pollLoop (conn.get_snapshot_status target_snapshot_id) fuel 0 with
      | .ok k =>
        match conn.get_snapshot_status target_snapshot_id (k + 1) with
        | .ec2error msg => .unhandled msg
        | .ok [] => .unhandled "IndexError"
        | .ok (s :: _) =>
          if s = "error" then .exit (.SnapshotCopyFailedError target_snapshot_id)
          else .ok target_snapshot_id
      | .exit e => .exit e
      | .unhandled msg => .unhandled msg
      | .spinning => .spinning

/-- Embedding of `create_image(connection, source_image, block_device_map,
sriov_net_support)`.

The registration request copies name, architecture, kernel id, ramdisk id,
root device name and virtualization type from the source image and
substitutes the freshly built device map and the caller-resolved
networking flag.  The first component of the result is that request (the
call is issued unconditionally on entry); the second is the outcome: a
caught provider rejection is the `RegistrationRequestError` exit, then the
new image's state is polled until it leaves `pending` and one further
unguarded state fetch decides: `failed` is the `ImageCreationFailedError`
exit naming the new image id, anything else returns the new image id. -/
def create_image (conn : Connection) (source_image : SourceImage) (block_device_map : BDMap)
    (sriov_net_support : String) (fuel : Nat) : RegisterRequest × Outcome String :=
  let req : RegisterRequest :=
    { name := source_image.name
      architecture := source_image.architecture
      kernel_id := source_image.kernel_id
      ramdisk_id := source_image.ramdisk_id
      root_device_name := source_image.root_device_name
      block_device_map := block_device_map
      virtualization_type := source_image.virtualization_type
      sriov_net_support := sriov_net_support }
  (req,
    match conn.register_image req with
    | .ec2error _ => .exit .RegistrationRequestError
    | .ok target_image_id =>
      match pollLoop (conn.get_image_state target_image_id) fuel 0 with
      | .ok k =>
        match conn.get_image_state target_image_id (k + 1) with
        | .ec2error msg => .unhandled msg
        | .ok [] => .unhandled "IndexError"
        | .ok (s :: _) =>
          if s = "failed" then .exit (.ImageCreationFailedError target_image_id)
          else .ok target_image_id
      | .exit e => .exit e
      | .unhandled msg => .unhandled msg
      | .spinning => .spinning)

/-- Networking-flag resolution of `main`: a requested flag forces the
fixed value `simple`, otherwise the source image's setting is copied
verbatim. -/
def resolve_sriov_net_support (sriov_requested : Bool) (source_image : SourceImage) : String :=
  if sriov_requested then "simple" else source_image.sriov_net_support

/-- Embedding of the orchestration in `main` after argument parsing:
fetch the source image (caught provider error is the `ResourceLookupError`
exit; empty list raises an uncaught `IndexError`), read the root entry's
snapshot id (a missing root entry raises an uncaught `KeyError`), run
`copy_snapshot`, resolve the networking flag, build the device map and run
`create_image`.  The second component records whether the register-image
call was issued, i.e. whether control reached `create_image`. -/
def main_flow (conn : Connection) (region : String) (ami_id : String) (sriov_requested : Bool)
    (fuel : Nat) : Outcome String × Bool :=
  match conn.get_all_images ami_id with
  | .ec2error _ => (.exit .ResourceLookupError, false)
  | .ok [] => (.unhandled "IndexError", false)
  | .ok (source_image :: _) =>
    let root_device_name := source_image.root_device_name
    match dictFind source_image.block_device_mapping root_device_name with
    | none => (.unhandled "KeyError", false)
    | some root_entry =>
      let source_snapshot_id := root_entry.snapshot_id
      match copy_snapshot conn region source_snapshot_id fuel with
      | .ok target_snapshot_id =>
        let sriov_net_support := resolve_sriov_net_support sriov_requested source_image
        match build_block_device_map source_image target_snapshot_id with
        | .error _ => (.unhandled "KeyError", false)
        | .ok block_device_map =>
          ((create_image conn source_image block_device_map sriov_net_support fuel).2, true)
      | out => (out, false)

/-- The root volume spec `build_block_device_map` constructs:
`BlockDeviceType(snapshot_id=target_snapshot_id, size=10,
volume_type='gp2', delete_on_termination=del)`. -/
def rootVolumeSpec (target_snapshot_id : String) (del : Bool) : BlockDeviceType :=
  { snapshot_id := some target_snapshot_id, size := some 10, volume_type := some "gp2",
    delete_on_termination := del }

/-- The i-th ephemeral spec `build_block_device_map` constructs:
`BlockDeviceType(ephemeral_name='ephemeral%i' % i)`. -/
def ephemeralSpec (i : Nat) : BlockDeviceType :=
  { ephemeral_name := some ("ephemeral" ++ toString i) }

/-- The device-map construction step as it sits in `main`: the provider
connection is in scope there, but `build_block_device_map` neither
receives it nor makes any provider call, so the step ignores it. -/
def build_step (_conn : Connection) (source_image : SourceImage)
    (target_snapshot_id : String) : Except AmiCopyError BDMap :=
  build_block_device_map source_image target_snapshot_id

/-- Root entry of the sample source image: snapshot-backed, 8 GB magnetic
volume, deleted on termination. -/
def exRootEntry : BlockDeviceType :=
  { snapshot_id := some "snap-0001", size := some 8, volume_type := some "standard",
    delete_on_termination := true }

/-- Sample valid source image with root device `/dev/sda1` and an extra
source ephemeral entry, to exercise independence from mapping contents. -/
def exImage : SourceImage :=
  { id := "ami-0001", name := "demo", architecture := "x86_64", kernel_id := "aki-0001",
    ramdisk_id := "ari-0001", root_device_name := "/dev/sda1", virtualization_type := "hvm",
    sriov_net_support := "",
    block_device_mapping :=
      [("/dev/sda1", exRootEntry), ("/dev/sdf", { ephemeral_name := some "ephemeral9" })] }

/-- Source image whose declared root device is the ephemeral slot
`/dev/sdb`, with a valid snapshot-backed entry for it. -/
def exImageRootSdb : SourceImage :=
  { id := "ami-0001", name := "demo", architecture := "x86_64", kernel_id := "aki-0001",
    ramdisk_id := "ari-0001", root_device_name := "/dev/sdb", virtualization_type := "hvm",
    sriov_net_support := "",
    block_device_mapping := [("/dev/sdb", exRootEntry)] }

/-- Source image whose declared root device is the ephemeral slot
`/dev/sde`, with a valid snapshot-backed entry for it. -/
def exImageRootSde : SourceImage :=
  { id := "ami-0001", name := "demo", architecture := "x86_64", kernel_id := "aki-0001",
    ramdisk_id := "ari-0001", root_device_name := "/dev/sde", virtualization_type := "hvm",
    sriov_net_support := "",
    block_device_mapping := [("/dev/sde", exRootEntry)] }

/-- Source image whose device mapping has no entry for its own declared
root device name. -/
def exImageNoRoot : SourceImage :=
  { id := "ami-0001", name := "demo", architecture := "x86_64", kernel_id := "aki-0001",
    ramdisk_id := "ari-0001", root_device_name := "/dev/sda1", virtualization_type := "hvm",
    sriov_net_support := "",
    block_device_mapping := [("/dev/sdf", exRootEntry)] }

/-- Sample source snapshot metadata. -/
def exSnap : Snapshot :=
  { id := "snap-0001", description := "source snapshot" }

/-- Happy-path provider oracle: every lookup succeeds, the snapshot copy
reports `pending` twice and then `completed`, the image registration
reports `pending` once and then `available`. -/
def connHappy : Connection :=
  { get_all_images := fun _ => .ok [exImage]
    get_all_snapshots := fun _ => .ok [exSnap]
    copy_snapshot_request := fun _ _ _ => .ok "snap-0002"
    get_snapshot_status := fun _ k => .ok [if k < 2 then "pending" else "completed"]
    register_image := fun _ => .ok "ami-0002"
    get_image_state := fun _ k => .ok [if k < 1 then "pending" else "available"] }

/-- Oracle on which the provider rejects the copy-snapshot request. -/
def connCopyReject : Connection :=
  { connHappy with copy_snapshot_request := fun _ _ _ => .ec2error "copy rejected" }

/-- Oracle on which the copied snapshot reports `pending` once and then
settles on the `error` status. -/
def connSnapFail : Connection :=
  { connHappy with get_snapshot_status := fun _ k => .ok [if k < 1 then "pending" else "error"] }

/-- Oracle on which the registered image reports `pending` once and then
settles on the `failed` state. -/
def connImageFail : Connection :=
  { connHappy with get_image_state := fun _ k => .ok [if k < 1 then "pending" else "failed"] }

/-- Oracle on which the source snapshot lookup returns an empty metadata
list without signaling a provider error. -/
def connEmptySnap : Connection :=
  { connHappy with get_all_snapshots := fun _ => .ok [] }

/-- Oracle on which every snapshot status fetch raises a provider error. -/
def connPollRaise : Connection :=
  { connHappy with get_snapshot_status := fun _ _ => .ec2error "RequestLimitExceeded" }

/-- Oracle whose snapshot status reads `completed` on the fetch that ends
the polling loop and `error` on the one unguarded fetch after it, and
whose image state reads `available` then `failed` likewise. -/
def connFlip : Connection :=
  { connHappy with
    get_snapshot_status := fun _ k => .ok [if k = 0 then "completed" else "error"]
    get_image_state := fun _ k => .ok [if k = 0 then "available" else "failed"] }

/-- Oracle whose snapshot status reads `completed` on the fetch that ends
the polling loop, while the one unguarded fetch after it raises a
provider error. -/
def connLateRaise : Connection :=
  { connHappy with
    get_snapshot_status := fun _ k =>
      if k = 0 then .ok ["completed"] else .ec2error "throttled" }

/-- Oracle on which the source-image lookup returns an empty metadata
list without signaling a provider error. -/
def connEmptyImages : Connection :=
  { connHappy with get_all_images := fun _ => .ok [] }

/-- Oracle on which every snapshot status fetch returns an empty metadata
list without signaling a provider error. -/
def connEmptyStatus : Connection :=
  { connHappy with get_snapshot_status := fun _ _ => .ok [] }

/-- Helper: a polling loop over a status sequence that reads `pending`
strictly before index `n` and a fixed non-`pending` status from index `n`
on ends at fetch index `n`, provided the fuel reaches that far. -/
theorem pollLoop_stable (σ : Nat → String) (t : String) (n : Nat)
    (hpend : ∀ k, k < n → σ k = "pending") (hterm : ∀ k, n ≤ k → σ k = t)
    (htne : t ≠ "pending") :
    ∀ fuel j, j ≤ n → n < j + fuel → pollLoop (fun k => .ok [σ k]) fuel j = .ok n := by
  intro fuel
  induction fuel with
  | zero => intro j hj hlt; omega
  | succ m ih =>
    intro j hj hlt
    by_cases hjn : j < n
    · have hσ : σ j = "pending" := hpend j hjn
      simp only [pollLoop, hσ, if_pos rfl]
      exact ih (j + 1) (by omega) (by omega)
    · have hje : j = n := by omega
      subst hje
      have hσ : σ j = t := hterm j le_rfl
      simp [pollLoop, hσ, htne]

/-- Helper: shape of the device map built for a source image whose root
device name is none of the four fixed ephemeral slots. -/
theorem build_block_device_map_shape (src : SourceImage) (tid : String) (e : BlockDeviceType)
    (hroot : dictFind src.block_device_mapping src.root_device_name = some e)
    (h1 : src.root_device_name ≠ "/dev/sdb") (h2 : src.root_device_name ≠ "/dev/sdc")
    (h3 : src.root_device_name ≠ "/dev/sdd") (h4 : src.root_device_name ≠ "/dev/sde") :
    build_block_device_map src tid = .ok
      [(src.root_device_name, rootVolumeSpec tid e.delete_on_termination),
       ("/dev/sdb", ephemeralSpec 0), ("/dev/sdc", ephemeralSpec 1),
       ("/dev/sdd", ephemeralSpec 2), ("/dev/sde", ephemeralSpec 3)] := by
  have c0 : "/dev/sd" ++ String.singleton (Char.ofNat (98 + 0)) = "/dev/sdb" := rfl
  have c1 : "/dev/sd" ++ String.singleton (Char.ofNat (98 + 1)) = "/dev/sdc" := rfl
  have c2 : "/dev/sd" ++ String.singleton (Char.ofNat (98 + 2)) = "/dev/sdd" := rfl
  have c3 : "/dev/sd" ++ String.singleton (Char.ofNat (98 + 3)) = "/dev/sde" := rfl
  have dbc : ("/dev/sdb" : String) ≠ "/dev/sdc" := by decide
  have dbd : ("/dev/sdb" : String) ≠ "/dev/sdd" := by decide
  have dbe : ("/dev/sdb" : String) ≠ "/dev/sde" := by decide
  have dcd : ("/dev/sdc" : String) ≠ "/dev/sdd" := by decide
  have dce : ("/dev/sdc" : String) ≠ "/dev/sde" := by decide
  have dde : ("/dev/sdd" : String) ≠ "/dev/sde" := by decide
  simp only [build_block_device_map, hroot]
  simp [List.range_succ, dictInsert, c0, c1, c2, c3, h1, h2, h3, h4,
    dbc, dbd, dbe, dcd, dce, dde, rootVolumeSpec, ephemeralSpec]

/-- C1 (counterexample): the claim quantifies over every valid source
image, but for the valid image `exImageRootSdb` — whose declared root
device name `/dev/sdb` has a snapshot-backed mapping entry yet coincides
with the first fixed ephemeral slot — the built map has 4 entries, not 5:
the ephemeral loop overwrites the root entry in place. -/
theorem c1_counterexample :
    (build_block_device_map exImageRootSdb "snap-0002").toOption.map List.length ≠ some 5 ∧
    (build_block_device_map exImageRootSdb "snap-0002").toOption.map List.length = some 4 := by
  decide

/-- C1 (amended): for every source image whose mapping has an entry for
its declared root device name and whose root device name is none of the
four fixed ephemeral slots `/dev/sdb`..`/dev/sde`, and every target
snapshot id, `build_block_device_map` returns a mapping of exactly five
entries: exactly one entry at the source root device name (the root
volume spec) and the four ephemeral entries `ephemeral0`..`ephemeral3` at
`/dev/sdb`..`/dev/sde`, regardless of the rest of the source mapping. -/
theorem c1_root_and_ephemeral_entries (src : SourceImage) (tid : String) (e : BlockDeviceType)
    (hroot : dictFind src.block_device_mapping src.root_device_name = some e)
    (h1 : src.root_device_name ≠ "/dev/sdb") (h2 : src.root_device_name ≠ "/dev/sdc")
    (h3 : src.root_device_name ≠ "/dev/sdd") (h4 : src.root_device_name ≠ "/dev/sde") :
    ∃ m, build_block_device_map src tid = .ok m ∧
      m.length = 5 ∧
      (m.filter fun p => p.1 = src.root_device_name).length = 1 ∧
      (m.filter fun p => p.2.ephemeral_name ≠ none).length = 4 ∧
      dictFind m src.root_device_name = some (rootVolumeSpec tid e.delete_on_termination) ∧
      dictFind m "/dev/sdb" = some (ephemeralSpec 0) ∧
      dictFind m "/dev/sdc" = some (ephemeralSpec 1) ∧
      dictFind m "/dev/sdd" = some (ephemeralSpec 2) ∧
      dictFind m "/dev/sde" = some (ephemeralSpec 3) := by
  have dbc : ("/dev/sdb" : String) ≠ "/dev/sdc" := by decide
  have dbd : ("/dev/sdb" : String) ≠ "/dev/sdd" := by decide
  have dbe : ("/dev/sdb" : String) ≠ "/dev/sde" := by decide
  have dcd : ("/dev/sdc" : String) ≠ "/dev/sdd" := by decide
  have dce : ("/dev/sdc" : String) ≠ "/dev/sde" := by decide
  have dde : ("/dev/sdd" : String) ≠ "/dev/sde" := by decide
  refine ⟨_, build_block_device_map_shape src tid e hroot h1 h2 h3 h4, ?_⟩
  refine ⟨rfl, ?_, ?_, ?_, ?_, ?_, ?_, ?_⟩
  · simp [List.filter, Ne.symm h1, Ne.symm h2, Ne.symm h3, Ne.symm h4]
  · simp [List.filter, rootVolumeSpec, ephemeralSpec]
  · simp [dictFind, rootVolumeSpec]
  · simp [dictFind, h1, dbc.symm, dbd.symm, dbe.symm]
  · simp [dictFind, h2, dbc, dcd.symm, dce.symm]
  · simp [dictFind, h3, dbd, dcd, dde.symm]
  · simp [dictFind, h4, dbe, dce, dde]

/-- C1 (witness): the amended claim evaluated on the sample image with
root device `/dev/sda1`. -/
theorem c1_witness :
    ∃ m, build_block_device_map exImage "snap-0002" = .ok m ∧
      m.length = 5 ∧
      (m.filter fun p => p.1 = exImage.root_device_name).length = 1 ∧
      (m.filter fun p => p.2.ephemeral_name ≠ none).length = 4 ∧
      dictFind m exImage.root_device_name =
        some (rootVolumeSpec "snap-0002" exRootEntry.delete_on_termination) ∧
      dictFind m "/dev/sdb" = some (ephemeralSpec 0) ∧
      dictFind m "/dev/sdc" = some (ephemeralSpec 1) ∧
      dictFind m "/dev/sdd" = some (ephemeralSpec 2) ∧
      dictFind m "/dev/sde" = some (ephemeralSpec 3) :=
  c1_root_and_ephemeral_entries exImage "snap-0002" exRootEntry rfl
    (by decide) (by decide) (by decide) (by decide)

/-- C2 (counterexample): on the valid image `exImageRootSde`, whose
declared root device name `/dev/sde` coincides with the last fixed
ephemeral slot, the entry of the built map at the root device name is the
ephemeral spec: its snapshot id is `none` rather than the target snapshot
id, and its size is `none` rather than 10. -/
theorem c2_counterexample :
    ((build_block_device_map exImageRootSde "snap-0002").toOption.bind
        (fun m => dictFind m exImageRootSde.root_device_name)).map
        BlockDeviceType.snapshot_id = some none ∧
    ((build_block_device_map exImageRootSde "snap-0002").toOption.bind
        (fun m => dictFind m exImageRootSde.root_device_name)).map
        BlockDeviceType.snapshot_id ≠ some (some "snap-0002") ∧
    ((build_block_device_map exImageRootSde "snap-0002").toOption.bind
        (fun m => dictFind m exImageRootSde.root_device_name)).map
        BlockDeviceType.size = some none := by
  decide

/-- C2 (amended): for every source image whose mapping has an entry for
its declared root device name and whose root device name is none of the
four fixed ephemeral slots, the entry of the built map at the root device
name is bound to the given target snapshot id, has size exactly 10 GB,
volume type exactly gp2, and a delete-on-termination flag equal to the
source root entry's flag — independent of the source entry's size and
volume type, which are universally quantified inside `e`. -/
theorem c2_root_volume_contents (src : SourceImage) (tid : String) (e : BlockDeviceType)
    (hroot : dictFind src.block_device_mapping src.root_device_name = some e)
    (h1 : src.root_device_name ≠ "/dev/sdb") (h2 : src.root_device_name ≠ "/dev/sdc")
    (h3 : src.root_device_name ≠ "/dev/sdd") (h4 : src.root_device_name ≠ "/dev/sde") :
    ∃ m r, build_block_device_map src tid = .ok m ∧
      dictFind m src.root_device_name = some r ∧
      r.snapshot_id = some tid ∧
      r.size = some 10 ∧
      r.volume_type = some "gp2" ∧
      r.delete_on_termination = e.delete_on_termination ∧
      r.ephemeral_name = none := by
  refine ⟨_, rootVolumeSpec tid e.delete_on_termination,
    build_block_device_map_shape src tid e hroot h1 h2 h3 h4, ?_, rfl, rfl, rfl, rfl, rfl⟩
  simp [dictFind, rootVolumeSpec]

/-- C2 (witness): the amended claim evaluated on the sample image with
root device `/dev/sda1`, whose source root entry is an 8 GB magnetic
volume with the delete-on-termination flag set. -/
theorem c2_witness :
    ∃ m r, build_block_device_map exImage "snap-0002" = .ok m ∧
      dictFind m exImage.root_device_name = some r ∧
      r.snapshot_id = some "snap-0002" ∧
      r.size = some 10 ∧
      r.volume_type = some "gp2" ∧
      r.delete_on_termination = exRootEntry.delete_on_termination ∧
      r.ephemeral_name = none :=
  c2_root_volume_contents exImage "snap-0002" exRootEntry rfl
    (by decide) (by decide) (by decide) (by decide)

/-- C4: for every source image whose device mapping lacks an entry for
the image's own declared root device name, and every target snapshot id,
`build_block_device_map` fails with `InvalidSourceImageError` (the
specification's name for the uncaught `KeyError` this inconsistency
raises) and with no other outcome. -/
theorem c4_missing_root_entry (src : SourceImage) (tid : String)
    (h : dictFind src.block_device_mapping src.root_device_name = none) :
    build_block_device_map src tid = .error .InvalidSourceImageError := by
  simp [build_block_device_map, h]

/-- C4 (witness): the sample image whose mapping has no entry for its
declared root device `/dev/sda1`. -/
theorem c4_witness :
    build_block_device_map exImageNoRoot "snap-0002" = .error .InvalidSourceImageError :=
  c4_missing_root_entry exImageNoRoot "snap-0002" rfl

/-- C9: the device-map construction is pure: as embedded it is a total
function of the source image and target snapshot id only — `build_step`,
its occurrence inside `main`, ignores the provider connection — so two
calls with equal inputs, under arbitrary and possibly different network
states, return identical mappings. -/
theorem c9_pure_idempotent (conn₁ conn₂ : Connection) (src₁ src₂ : SourceImage)
    (tid₁ tid₂ : String) (hsrc : src₁ = src₂) (htid : tid₁ = tid₂) :
    build_step conn₁ src₁ tid₁ = build_step conn₂ src₂ tid₂ ∧
    build_step conn₁ src₁ tid₁ = build_block_device_map src₁ tid₁ := by
  subst hsrc
  subst htid
  exact ⟨rfl, rfl⟩

/-- C9 (witness): the two calls evaluated against two different provider
oracles on the sample image. -/
theorem c9_witness :
    build_step connHappy exImage "snap-0002" = build_step connCopyReject exImage "snap-0002" ∧
    build_step connHappy exImage "snap-0002" = build_block_device_map exImage "snap-0002" :=
  c9_pure_idempotent connHappy connCopyReject exImage exImage "snap-0002" "snap-0002" rfl rfl

/-- C3: networking-flag resolution returns the fixed value `simple`
whenever the flag is forced, regardless of the source image's setting,
and returns the source image's setting verbatim when not forced; in
particular a source image already set to `simple` resolves to `simple`
under either flag value, so the flag cannot disable enhanced networking. -/
theorem c3_networking_flag (src : SourceImage) (force : Bool) :
    (force = true → resolve_sriov_net_support force src = "simple") ∧
    (force = false → resolve_sriov_net_support force src = src.sriov_net_support) ∧
    (src.sriov_net_support = "simple" → resolve_sriov_net_support force src = "simple") := by
  cases force <;> simp [resolve_sriov_net_support]

/-- C3 (witness): both branches evaluated on the sample image. -/
theorem c3_witness :
    resolve_sriov_net_support true exImage = "simple" ∧
    resolve_sriov_net_support false exImage = exImage.sriov_net_support :=
  ⟨(c3_networking_flag exImage true).1 rfl, (c3_networking_flag exImage false).2.1 rfl⟩

/-- C5: in every run of `copy_snapshot` whose copy request is accepted
and whose polled status reads `pending` up to some fetch and then a fixed
terminal status from there on (terminal states make no further
transition), the outcome once the status leaves `pending` is: the
`SnapshotCopyFailedError` exit naming the new snapshot id when the
observed status is `error`, and a normal return of the new snapshot id
for every other non-`pending` status. -/
theorem c5_terminal_status (conn : Connection) (region : String) (sid : Option String)
    (s : Snapshot) (rest : List Snapshot) (tid : String) (σ : Nat → String) (t : String)
    (n fuel : Nat)
    (hsrc : conn.get_all_snapshots sid = .ok (s :: rest))
    (hcopy : conn.copy_snapshot_request region s.id s.description = .ok tid)
    (hst : ∀ k, conn.get_snapshot_status tid k = .ok [σ k])
    (hpend : ∀ k, k < n → σ k = "pending")
    (hterm : ∀ k, n ≤ k → σ k = t)
    (htne : t ≠ "pending")
    (hfuel : n < fuel) :
    copy_snapshot conn region sid fuel =
      if t = "error" then .exit (.SnapshotCopyFailedError tid) else .ok tid := by
  have hfun : conn.get_snapshot_status tid = fun k => .ok [σ k] := funext hst
  have hpoll := pollLoop_stable σ t n hpend hterm htne fuel 0 (Nat.zero_le n) (by omega)
  have hnext : σ (n + 1) = t := hterm (n + 1) (by omega)
  simp only [copy_snapshot, hsrc, hcopy, hfun, hpoll, hnext]

/-- C5 (witness): the happy-path oracle, whose copied snapshot reads
`pending` twice and then `completed`, returns the new snapshot id. -/
theorem c5_witness :
    copy_snapshot connHappy "us-east-1" (some "snap-0001") 3 = .ok "snap-0002" := by
  have h := c5_terminal_status connHappy "us-east-1" (some "snap-0001") exSnap []
    "snap-0002" (fun k => if k < 2 then "pending" else "completed") "completed" 2 3
    rfl rfl (fun _ => rfl) (fun k hk => if_pos hk) (fun k hk => if_neg (by omega))
    (by decide) (by decide)
  rw [if_neg (by decide)] at h
  exact h

/-- C6: in every run in which the source-image lookup and the root entry
are in order but the provider rejects the copy-snapshot request, `main`
terminates with the `CopyRequestError` exit and the register-image call
is never issued. -/
theorem c6_rejected_copy_request (conn : Connection) (region ami : String) (force : Bool)
    (fuel : Nat) (img : SourceImage) (rest : List SourceImage) (e : BlockDeviceType)
    (s : Snapshot) (rest₂ : List Snapshot) (msg : String)
    (himg : conn.get_all_images ami = .ok (img :: rest))
    (hroot : dictFind img.block_device_mapping img.root_device_name = some e)
    (hsnap : conn.get_all_snapshots e.snapshot_id = .ok (s :: rest₂))
    (hrej : conn.copy_snapshot_request region s.id s.description = .ec2error msg) :
    main_flow conn region ami force fuel = (.exit .CopyRequestError, false) := by
  simp only [main_flow, himg, hroot, copy_snapshot, hsnap, hrej]

/-- C6 (witness): the oracle whose provider rejects the copy request. -/
theorem c6_witness :
    main_flow connCopyReject "us-east-1" "ami-0001" false 5 =
      (.exit .CopyRequestError, false) :=
  c6_rejected_copy_request connCopyReject "us-east-1" "ami-0001" false 5 exImage []
    exRootEntry exSnap [] "copy rejected" rfl rfl rfl rfl

/-- Helper: outcome of `copy_snapshot` on a run whose copy request is
accepted and whose status sequence is `pending` before fetch `n` and a
fixed non-`pending` status from fetch `n` on. -/
theorem copy_snapshot_stable (conn : Connection) (region : String) (sid : Option String)
    (s : Snapshot) (rest : List Snapshot) (tid : String) (σ : Nat → String) (t : String)
    (n fuel : Nat)
    (hsrc : conn.get_all_snapshots sid = .ok (s :: rest))
    (hcopy : conn.copy_snapshot_request region s.id s.description = .ok tid)
    (hst : ∀ k, conn.get_snapshot_status tid k = .ok [σ k])
    (hpend : ∀ k, k < n → σ k = "pending")
    (hterm : ∀ k, n ≤ k → σ k = t)
    (htne : t ≠ "pending")
    (hfuel : n < fuel) :
    copy_snapshot conn region sid fuel =
      if t = "error" then .exit (.SnapshotCopyFailedError tid) else .ok tid := by
  have hfun : conn.get_snapshot_status tid = fun k => .ok [σ k] := funext hst
  have hpoll := pollLoop_stable σ t n hpend hterm htne fuel 0 (Nat.zero_le n) (by omega)
  have hnext : σ (n + 1) = t := hterm (n + 1) (by omega)
  simp only [copy_snapshot, hsrc, hcopy, hfun, hpoll, hnext]

/-- Helper: outcome of `create_image` on a run whose registration request
is accepted and whose state sequence is `pending` before fetch `n` and a
fixed non-`pending` state from fetch `n` on. -/
theorem create_image_stable (conn : Connection) (src : SourceImage) (dm : BDMap)
    (flag tid : String) (σ : Nat → String) (t : String) (n fuel : Nat)
    (hreg : conn.register_image
      { name := src.name, architecture := src.architecture, kernel_id := src.kernel_id,
        ramdisk_id := src.ramdisk_id, root_device_name := src.root_device_name,
        block_device_map := dm, virtualization_type := src.virtualization_type,
        sriov_net_support := flag } = .ok tid)
    (hst : ∀ k, conn.get_image_state tid k = .ok [σ k])
    (hpend : ∀ k, k < n → σ k = "pending")
    (hterm : ∀ k, n ≤ k → σ k = t)
    (htne : t ≠ "pending")
    (hfuel : n < fuel) :
    (create_image conn src dm flag fuel).2 =
      if t = "failed" then .exit (.ImageCreationFailedError tid) else .ok tid := by
  have hfun : conn.get_image_state tid = fun k => .ok [σ k] := funext hst
  have hpoll := pollLoop_stable σ t n hpend hterm htne fuel 0 (Nat.zero_le n) (by omega)
  have hnext : σ (n + 1) = t := hterm (n + 1) (by omega)
  simp only [create_image, hreg, hfun, hpoll, hnext]

/-- C7: the polling loops end exactly when the polled status leaves
`pending`.  First conjunct: on the simulated status sequence
`pending, pending, completed, ...` the snapshot loop ends at fetch index
2 — its body ran exactly twice — and `copy_snapshot` succeeds.  Second
conjunct: on a sequence settling on `error` at index `n` the loop ends at
index `n` (no further loop iteration) and `copy_snapshot` gives the
`SnapshotCopyFailedError` exit.  Third conjunct: on a state sequence
settling on `failed` at index `n` the image loop ends at index `n` and
`create_image` gives the `ImageCreationFailedError` exit. -/
theorem c7_polling_terminates_on_non_pending :
    (∀ (conn : Connection) (region : String) (sid : Option String) (s : Snapshot)
        (rest : List Snapshot) (tid : String) (fuel : Nat),
      conn.get_all_snapshots sid = .ok (s :: rest) →
      conn.copy_snapshot_request region s.id s.description = .ok tid →
      (∀ k, conn.get_snapshot_status tid k =
        .ok [if k < 2 then "pending" else "completed"]) →
      2 < fuel →
      pollLoop (conn.get_snapshot_status tid) fuel 0 = .ok 2 ∧
        copy_snapshot conn region sid fuel = .ok tid) ∧
    (∀ (conn : Connection) (region : String) (sid : Option String) (s : Snapshot)
        (rest : List Snapshot) (tid : String) (σ : Nat → String) (n fuel : Nat),
      conn.get_all_snapshots sid = .ok (s :: rest) →
      conn.copy_snapshot_request region s.id s.description = .ok tid →
      (∀ k, conn.get_snapshot_status tid k = .ok [σ k]) →
      (∀ k, k < n → σ k = "pending") →
      (∀ k, n ≤ k → σ k = "error") →
      n < fuel →
      pollLoop (conn.get_snapshot_status tid) fuel 0 = .ok n ∧
        copy_snapshot conn region sid fuel = .exit (.SnapshotCopyFailedError tid)) ∧
    (∀ (conn : Connection) (src : SourceImage) (dm : BDMap) (flag tid : String)
        (σ : Nat → String) (n fuel : Nat),
      conn.register_image
        { name := src.name, architecture := src.architecture, kernel_id := src.kernel_id,
          ramdisk_id := src.ramdisk_id, root_device_name := src.root_device_name,
          block_device_map := dm, virtualization_type := src.virtualization_type,
          sriov_net_support := flag } = .ok tid →
      (∀ k, conn.get_image_state tid k = .ok [σ k]) →
      (∀ k, k < n → σ k = "pending") →
      (∀ k, n ≤ k → σ k = "failed") →
      n < fuel →
      pollLoop (conn.get_image_state tid) fuel 0 = .ok n ∧
        (create_image conn src dm flag fuel).2 = .exit (.ImageCreationFailedError tid)) := by
  refine ⟨?_, ?_, ?_⟩
  · intro conn region sid s rest tid fuel hsrc hcopy hst hfuel
    have hpoll := pollLoop_stable (fun k => if k < 2 then "pending" else "completed")
      "completed" 2 (fun k hk => if_pos hk) (fun k hk => if_neg (by omega)) (by decide)
      fuel 0 (by omega) (by omega)
    have h := copy_snapshot_stable conn region sid s rest tid
      (fun k => if k < 2 then "pending" else "completed") "completed" 2 fuel hsrc hcopy hst
      (fun k hk => if_pos hk) (fun k hk => if_neg (by omega)) (by decide) (by omega)
    rw [if_neg (by decide)] at h
    exact ⟨by rw [funext hst]; exact hpoll, h⟩
  · intro conn region sid s rest tid σ n fuel hsrc hcopy hst hpend hterm hfuel
    have hpoll := pollLoop_stable σ "error" n hpend hterm (by decide) fuel 0
      (Nat.zero_le n) (by omega)
    have h := copy_snapshot_stable conn region sid s rest tid σ "error" n fuel hsrc hcopy
      hst hpend hterm (by decide) hfuel
    rw [if_pos rfl] at h
    exact ⟨by rw [funext hst]; exact hpoll, h⟩
  · intro conn src dm flag tid σ n fuel hreg hst hpend hterm hfuel
    have hpoll := pollLoop_stable σ "failed" n hpend hterm (by decide) fuel 0
      (Nat.zero_le n) (by omega)
    have h := create_image_stable conn src dm flag tid σ "failed" n fuel hreg hst hpend
      hterm (by decide) hfuel
    rw [if_pos rfl] at h
    exact ⟨by rw [funext hst]; exact hpoll, h⟩

/-- C7 (witness): the three conjuncts evaluated on the happy-path oracle
(`pending, pending, completed`: exactly two loop iterations), an oracle
whose snapshot settles on `error` after one `pending`, and an oracle
whose image settles on `failed` after one `pending`. -/
theorem c7_witness :
    (pollLoop (connHappy.get_snapshot_status "snap-0002") 3 0 = .ok 2 ∧
      copy_snapshot connHappy "us-east-1" (some "snap-0001") 3 = .ok "snap-0002") ∧
    (pollLoop (connSnapFail.get_snapshot_status "snap-0002") 2 0 = .ok 1 ∧
      copy_snapshot connSnapFail "us-east-1" (some "snap-0001") 2 =
        .exit (.SnapshotCopyFailedError "snap-0002")) ∧
    (pollLoop (connImageFail.get_image_state "ami-0002") 2 0 = .ok 1 ∧
      (create_image connImageFail exImage [] "simple" 2).2 =
        .exit (.ImageCreationFailedError "ami-0002")) :=
  ⟨c7_polling_terminates_on_non_pending.1 connHappy "us-east-1" (some "snap-0001") exSnap []
      "snap-0002" 3 rfl rfl (fun _ => rfl) (by decide),
    c7_polling_terminates_on_non_pending.2.1 connSnapFail "us-east-1" (some "snap-0001")
      exSnap [] "snap-0002" (fun k => if k < 1 then "pending" else "error") 1 2 rfl rfl
      (fun _ => rfl) (fun k hk => if_pos hk) (fun k hk => if_neg (by omega)) (by decide),
    c7_polling_terminates_on_non_pending.2.2 connImageFail exImage [] "simple" "ami-0002"
      (fun k => if k < 1 then "pending" else "failed") 1 2 rfl (fun _ => rfl)
      (fun k hk => if_pos hk) (fun k hk => if_neg (by omega)) (by decide)⟩

/-- C8: every `create_image` run issues a registration request carrying
the source image's name, architecture, kernel id, ramdisk id, root device
name and virtualization type unchanged, with the freshly built device map
and the caller-resolved networking flag substituted; and once the new
image's polled state settles out of `pending`, the outcome is the
`ImageCreationFailedError` exit naming the new image id when that state
is `failed`, and a normal return of the new image id otherwise. -/
theorem c8_registration_request_and_terminal_state (conn : Connection) (src : SourceImage)
    (dm : BDMap) (flag tid : String) (σ : Nat → String) (t : String) (n fuel : Nat)
    (hreg : conn.register_image
      { name := src.name, architecture := src.architecture, kernel_id := src.kernel_id,
        ramdisk_id := src.ramdisk_id, root_device_name := src.root_device_name,
        block_device_map := dm, virtualization_type := src.virtualization_type,
        sriov_net_support := flag } = .ok tid)
    (hst : ∀ k, conn.get_image_state tid k = .ok [σ k])
    (hpend : ∀ k, k < n → σ k = "pending")
    (hterm : ∀ k, n ≤ k → σ k = t)
    (htne : t ≠ "pending")
    (hfuel : n < fuel) :
    (create_image conn src dm flag fuel).1 =
      { name := src.name, architecture := src.architecture, kernel_id := src.kernel_id,
        ramdisk_id := src.ramdisk_id, root_device_name := src.root_device_name,
        block_device_map := dm, virtualization_type := src.virtualization_type,
        sriov_net_support := flag } ∧
    (create_image conn src dm flag fuel).2 =
      if t = "failed" then .exit (.ImageCreationFailedError tid) else .ok tid :=
  ⟨rfl, create_image_stable conn src dm flag tid σ t n fuel hreg hst hpend hterm htne hfuel⟩

/-- C8 (witness): registration on the happy-path oracle, whose image
reads `pending` once and then `available`. -/
theorem c8_witness :
    (create_image connHappy exImage [] "simple" 2).1 =
      { name := exImage.name, architecture := exImage.architecture,
        kernel_id := exImage.kernel_id, ramdisk_id := exImage.ramdisk_id,
        root_device_name := exImage.root_device_name, block_device_map := [],
        virtualization_type := exImage.virtualization_type,
        sriov_net_support := "simple" } ∧
    (create_image connHappy exImage [] "simple" 2).2 = .ok "ami-0002" := by
  have h := c8_registration_request_and_terminal_state connHappy exImage [] "simple"
    "ami-0002" (fun k => if k < 1 then "pending" else "available") "available" 1 2
    rfl (fun _ => rfl) (fun k hk => if_pos hk) (fun k hk => if_neg (by omega))
    (by decide) (by decide)
  rw [if_neg (by decide)] at h
  exact h

/-- C10: only the initial metadata lookups and the two mutating requests
are guarded; every status fetch inside and after the polling loops, and
every indexing of a returned metadata list, is unguarded.  Conjuncts: an
empty source-image metadata list and an empty source-snapshot metadata
list escape as an uncaught `IndexError` (not as any `Outcome.exit`); a
provider error raised by the status fetch inside the loop, by a fetch
returning an empty list inside the loop, or by the one status fetch after
the loop, escapes as an uncaught exception; and the terminal decision is
made by that one additional fetch, separate from the fetch that ended the
loop — a run whose loop-ending fetch reads `completed` (`available`) but
whose next fetch reads `error` (`failed`) takes the
`SnapshotCopyFailedError` (`ImageCreationFailedError`) exit. -/
theorem c10_unguarded_fetches_escape :
    (∀ (conn : Connection) (region ami : String) (force : Bool) (fuel : Nat),
      conn.get_all_images ami = .ok [] →
      main_flow conn region ami force fuel = (.unhandled "IndexError", false)) ∧
    (∀ (conn : Connection) (region : String) (sid : Option String) (fuel : Nat),
      conn.get_all_snapshots sid = .ok [] →
      copy_snapshot conn region sid fuel = .unhandled "IndexError") ∧
    (∀ (conn : Connection) (region : String) (sid : Option String) (s : Snapshot)
        (rest : List Snapshot) (tid msg : String) (fuel : Nat),
      conn.get_all_snapshots sid = .ok (s :: rest) →
      conn.copy_snapshot_request region s.id s.description = .ok tid →
      conn.get_snapshot_status tid 0 = .ec2error msg →
      copy_snapshot conn region sid (fuel + 1) = .unhandled msg) ∧
    (∀ (conn : Connection) (region : String) (sid : Option String) (s : Snapshot)
        (rest : List Snapshot) (tid : String) (fuel : Nat),
      conn.get_all_snapshots sid = .ok (s :: rest) →
      conn.copy_snapshot_request region s.id s.description = .ok tid →
      conn.get_snapshot_status tid 0 = .ok [] →
      copy_snapshot conn region sid (fuel + 1) = .unhandled "IndexError") ∧
    (∀ (conn : Connection) (region : String) (sid : Option String) (s : Snapshot)
        (rest : List Snapshot) (tid msg : String) (fuel : Nat),
      conn.get_all_snapshots sid = .ok (s :: rest) →
      conn.copy_snapshot_request region s.id s.description = .ok tid →
      conn.get_snapshot_status tid 0 = .ok ["completed"] →
      conn.get_snapshot_status tid 1 = .ec2error msg →
      copy_snapshot conn region sid (fuel + 1) = .unhandled msg) ∧
    (∀ (conn : Connection) (region : String) (sid : Option String) (s : Snapshot)
        (rest : List Snapshot) (tid : String) (fuel : Nat),
      conn.get_all_snapshots sid = .ok (s :: rest) →
      conn.copy_snapshot_request region s.id s.description = .ok tid →
      conn.get_snapshot_status tid 0 = .ok ["completed"] →
      conn.get_snapshot_status tid 1 = .ok ["error"] →
      copy_snapshot conn region sid (fuel + 1) =
        .exit (.SnapshotCopyFailedError tid)) ∧
    (∀ (conn : Connection) (src : SourceImage) (dm : BDMap) (flag tid : String)
        (fuel : Nat),
      conn.register_image
        { name := src.name, architecture := src.architecture, kernel_id := src.kernel_id,
          ramdisk_id := src.ramdisk_id, root_device_name := src.root_device_name,
          block_device_map := dm, virtualization_type := src.virtualization_type,
          sriov_net_support := flag } = .ok tid →
      conn.get_image_state tid 0 = .ok ["available"] →
      conn.get_image_state tid 1 = .ok ["failed"] →
      (create_image conn src dm flag (fuel + 1)).2 =
        .exit (.ImageCreationFailedError tid)) := by
  have hcp : ("completed" : String) ≠ "pending" := by decide
  have hap : ("available" : String) ≠ "pending" := by decide
  refine ⟨?_, ?_, ?_, ?_, ?_, ?_, ?_⟩
  · intro conn region ami force fuel h
    simp only [main_flow, h]
  · intro conn region sid fuel h
    simp only [copy_snapshot, h]
  · intro conn region sid s rest tid msg fuel hsrc hcopy h0
    simp only [copy_snapshot, hsrc, hcopy, pollLoop, h0]
  · intro conn region sid s rest tid fuel hsrc hcopy h0
    simp only [copy_snapshot, hsrc, hcopy, pollLoop, h0]
  · intro conn region sid s rest tid msg fuel hsrc hcopy h0 h1
    simp [copy_snapshot, hsrc, hcopy, pollLoop, h0, h1, hcp]
  · intro conn region sid s rest tid fuel hsrc hcopy h0 h1
    simp [copy_snapshot, hsrc, hcopy, pollLoop, h0, h1, hcp]
  · intro conn src dm flag tid fuel hreg h0 h1
    simp [create_image, hreg, pollLoop, h0, h1, hap]

/-- C10 (witness): the conjuncts evaluated on oracles returning an empty
image list, an empty snapshot list, a provider error on every status
fetch, an empty list on every status fetch, a provider error on the
fetch after the loop, and flipped statuses around the loop end. -/
theorem c10_witness :
    main_flow connEmptyImages "us-east-1" "ami-0001" false 5 =
      (.unhandled "IndexError", false) ∧
    copy_snapshot connEmptySnap "us-east-1" (some "snap-0001") 5 =
      .unhandled "IndexError" ∧
    copy_snapshot connPollRaise "us-east-1" (some "snap-0001") 5 =
      .unhandled "RequestLimitExceeded" ∧
    copy_snapshot connEmptyStatus "us-east-1" (some "snap-0001") 5 =
      .unhandled "IndexError" ∧
    copy_snapshot connLateRaise "us-east-1" (some "snap-0001") 5 =
      .unhandled "throttled" ∧
    copy_snapshot connFlip "us-east-1" (some "snap-0001") 5 =
      .exit (.SnapshotCopyFailedError "snap-0002") ∧
    (create_image connFlip exImage [] "simple" 5).2 =
      .exit (.ImageCreationFailedError "ami-0002") :=
  ⟨c10_unguarded_fetches_escape.1 connEmptyImages "us-east-1" "ami-0001" false 5 rfl,
    c10_unguarded_fetches_escape.2.1 connEmptySnap "us-east-1" (some "snap-0001") 5 rfl,
    c10_unguarded_fetches_escape.2.2.1 connPollRaise "us-east-1" (some "snap-0001")
      exSnap [] "snap-0002" "RequestLimitExceeded" 4 rfl rfl rfl,
    c10_unguarded_fetches_escape.2.2.2.1 connEmptyStatus "us-east-1" (some "snap-0001")
      exSnap [] "snap-0002" 4 rfl rfl rfl,
    c10_unguarded_fetches_escape.2.2.2.2.1 connLateRaise "us-east-1" (some "snap-0001")
      exSnap [] "snap-0002" "throttled" 4 rfl rfl rfl rfl,
    c10_unguarded_fetches_escape.2.2.2.2.2.1 connFlip "us-east-1" (some "snap-0001")
      exSnap [] "snap-0002" 4 rfl rfl rfl rfl,
    c10_unguarded_fetches_escape.2.2.2.2.2.2 connFlip exImage [] "simple" "ami-0002" 4
      rfl rfl rfl⟩
